import Mathlib

/-!
# Verification of the json-validator persistence core

A shallow embedding of the storage layer of the `json-validator` repository:
the identifier generator (`src/database/types.ts`), the embedded SQLite
provider (`src/database/sqlite.ts`, built on sql.js), the managed DynamoDB
provider (`src/database/dynamodb.ts`), the storage facade
(`src/database/index.ts`), and the legacy standalone database module
(old `src/database.ts`) that predates the provider split.

Conventions of the embedding:
* Node's `randomBytes(n)` is modelled by passing the drawn bytes (a
  `List Nat`, each element < 256) as an explicit argument.
* Timestamps are modelled as naturals; the SQL `DATETIME` strings produced
  by `CURRENT_TIMESTAMP` and compared by `datetime('now', '-7 days')` are
  ordered exactly like the instants they denote, so `<` on `Nat` is the
  faithful image of the source's comparisons.  DynamoDB's `created_at`
  (an ISO-8601 string of the current instant) is likewise modelled by the
  instant itself; its `ttl` is the integer `Math.floor(Date.now()/1000) +
  86400`, kept in seconds exactly as the source computes it.
* Fallible operations return `Except String` mirroring thrown `Error`s;
  `null` results are `Option.none`.
-/

namespace JsonValidator

/-- The base64url alphabet, in encoding order: `A-Z`, `a-z`, `0-9`, `-`, `_`.
This is the alphabet Node's `Buffer.toString('base64url')` emits (and it
emits no padding). -/
def base64urlChars : List Char :=
  ['A','B','C','D','E','F','G','H','I','J','K','L','M',
   'N','O','P','Q','R','S','T','U','V','W','X','Y','Z',
   'a','b','c','d','e','f','g','h','i','j','k','l','m',
   'n','o','p','q','r','s','t','u','v','w','x','y','z',
   '0','1','2','3','4','5','6','7','8','9','-','_']

/-- The character encoding a single 6-bit value. -/
def b64c (n : Nat) : Char := base64urlChars.getD n 'A'

/-- Split a byte list into 6-bit groups, exactly as base64 does: three bytes
become four sextets; a trailing one or two bytes become two or three sextets
(zero-padded on the right, unpadded output). -/
def toSextets : List Nat → List Nat
  | a :: b :: c :: rest =>
      a / 4 :: (a % 4 * 16 + b / 16) :: (b % 16 * 4 + c / 64) :: c % 64 :: toSextets rest
  | [a, b] => [a / 4, a % 4 * 16 + b / 16, b % 16 * 4]
  | [a] => [a / 4, a % 4 * 16]
  | [] => []

/-- Reassemble bytes from 6-bit groups; the decoding direction of
`toSextets`, used to show the encoding is injective. -/
def fromSextets : List Nat → List Nat
  | s1 :: s2 :: s3 :: s4 :: rest =>
      (s1 * 4 + s2 / 16) :: (s2 % 16 * 16 + s3 / 4) :: (s3 % 4 * 64 + s4) :: fromSextets rest
  | [s1, s2, s3] => [s1 * 4 + s2 / 16, s2 % 16 * 16 + s3 / 4]
  | [s1, s2] => [s1 * 4 + s2 / 16]
  | _ => []

/-- `Buffer.toString('base64url')` on a byte sequence. -/
def base64urlEncode (bytes : List Nat) : String :=
  ⟨(toSextets bytes).map b64c⟩

/-- `generateId` from `src/database/types.ts`:
`randomBytes(12).toString('base64url')`.  The twelve random bytes drawn
from the cryptographic source are the argument. -/
def generateId (randomBytes : List Nat) : String :=
  base64urlEncode randomBytes

/-- `generateId` from the legacy standalone module (old `src/database.ts`):
`randomBytes(6).toString('base64url')`.  The six random bytes are the
argument. -/
def legacyGenerateId (randomBytes : List Nat) : String :=
  base64urlEncode randomBytes

/-- A string is URL-safe when every character belongs to the base64url
alphabet. -/
def isUrlSafe (s : String) : Bool :=
  s.data.all base64urlChars.contains

theorem fromSextets_toSextets (l : List Nat) (h : ∀ x ∈ l, x < 256) :
    fromSextets (toSextets l) = l := by
  induction l using toSextets.induct with
  | case1 a b c rest ih =>
    have ha : a < 256 := h a (by simp)
    have hb : b < 256 := h b (by simp)
    have hc : c < 256 := h c (by simp)
    have hrest : ∀ x ∈ rest, x < 256 := fun x hx => h x (by simp [hx])
    simp [toSextets, fromSextets, ih hrest]
    omega
  | case2 a b =>
    have ha : a < 256 := h a (by simp)
    have hb : b < 256 := h b (by simp)
    simp [toSextets, fromSextets]
    omega
  | case3 a =>
    have ha : a < 256 := h a (by simp)
    simp [toSextets, fromSextets]
    omega
  | case4 => simp [toSextets, fromSextets]

theorem toSextets_lt (l : List Nat) (h : ∀ x ∈ l, x < 256) :
    ∀ y ∈ toSextets l, y < 64 := by
  induction l using toSextets.induct with
  | case1 a b c rest ih =>
    have ha : a < 256 := h a (by simp)
    have hb : b < 256 := h b (by simp)
    have hc : c < 256 := h c (by simp)
    have hrest : ∀ x ∈ rest, x < 256 := fun x hx => h x (by simp [hx])
    intro y hy
    simp only [toSextets, List.mem_cons] at hy
    rcases hy with rfl | rfl | rfl | rfl | hy
    · omega
    · omega
    · omega
    · omega
    · exact ih hrest y hy
  | case2 a b =>
    have ha : a < 256 := h a (by simp)
    have hb : b < 256 := h b (by simp)
    intro y hy
    simp only [toSextets, List.mem_cons, List.not_mem_nil, or_false] at hy
    rcases hy with rfl | rfl | rfl <;> omega
  | case3 a =>
    have ha : a < 256 := h a (by simp)
    intro y hy
    simp only [toSextets, List.mem_cons, List.not_mem_nil, or_false] at hy
    rcases hy with rfl | rfl <;> omega
  | case4 => intro y hy; simp [toSextets] at hy

theorem toSextets_length (l : List Nat) (h : l.length % 3 = 0) :
    (toSextets l).length = l.length / 3 * 4 := by
  induction l using toSextets.induct with
  | case1 a b c rest ih =>
    have hrest : rest.length % 3 = 0 := by simp at h; omega
    simp [toSextets, ih hrest]
    omega
  | case2 a b => simp at h
  | case3 a => simp at h
  | case4 => rfl

theorem b64c_inj : ∀ x < 64, ∀ y < 64, b64c x = b64c y → x = y := by decide

theorem b64c_mem : ∀ n < 64, base64urlChars.contains (b64c n) = true := by decide

theorem map_b64c_inj (l1 : List Nat) :
    ∀ l2 : List Nat, (∀ x ∈ l1, x < 64) → (∀ x ∈ l2, x < 64) →
      l1.map b64c = l2.map b64c → l1 = l2 := by
  induction l1 with
  | nil => intro l2 _ _ hmap; cases l2 <;> simp_all
  | cons a l1 ih =>
    intro l2 h1 h2 hmap
    cases l2 with
    | nil => simp at hmap
    | cons b l2 =>
      simp only [List.map_cons, List.cons.injEq] at hmap
      have ha : a < 64 := h1 a (by simp)
      have hb : b < 64 := h2 b (by simp)
      have := b64c_inj a ha b hb hmap.1
      subst this
      have := ih l2 (fun x hx => h1 x (by simp [hx])) (fun x hx => h2 x (by simp [hx])) hmap.2
      simp [this]

theorem base64urlEncode_inj (l1 l2 : List Nat)
    (h1 : ∀ x ∈ l1, x < 256) (h2 : ∀ x ∈ l2, x < 256)
    (heq : base64urlEncode l1 = base64urlEncode l2) : l1 = l2 := by
  have hdata : (toSextets l1).map b64c = (toSextets l2).map b64c := by
    have := congrArg String.data heq
    simpa [base64urlEncode] using this
  have hsex : toSextets l1 = toSextets l2 :=
    map_b64c_inj _ _ (toSextets_lt l1 h1) (toSextets_lt l2 h2) hdata
  calc l1 = fromSextets (toSextets l1) := (fromSextets_toSextets l1 h1).symm
    _ = fromSextets (toSextets l2) := by rw [hsex]
    _ = l2 := fromSextets_toSextets l2 h2

theorem base64urlEncode_length (l : List Nat) (h : l.length % 3 = 0) :
    (base64urlEncode l).length = l.length / 3 * 4 := by
  simp [base64urlEncode, String.length, toSextets_length l h]

theorem base64urlEncode_urlSafe (l : List Nat) (h : ∀ x ∈ l, x < 256) :
    isUrlSafe (base64urlEncode l) = true := by
  simp only [isUrlSafe, base64urlEncode, List.all_eq_true]
  intro c hc
  simp only [List.mem_map] at hc
  obtain ⟨y, hy, rfl⟩ := hc
  exact b64c_mem y (toSextets_lt l h y hy)

/-- `ValidationRecord` from `src/database/types.ts`: the record shape every
provider returns from `getValidation`.  It has exactly the four fields
`id`, `schema`, `json`, `created_at` — there is no `ttl` field.
`created_at` is the store-assigned instant (see the timestamp convention in
the file header). -/
structure ValidationRecord where
  id : String
  schema : String
  json : String
  created_at : Nat
deriving DecidableEq, Repr

/-! ## Embedded provider (`src/database/sqlite.ts`, sql.js)

State after a successful `initDB()`: the in-memory `validations` table
(`rows`, in insertion order — `id TEXT PRIMARY KEY`) and the on-disk image
last written by `saveDB()` (`disk`). -/

/-- In-memory database plus the persisted file image of the embedded
provider. -/
structure SQLiteState where
  rows : List ValidationRecord
  disk : List ValidationRecord
deriving DecidableEq, Repr

/-- `SQLiteProvider.saveValidation`: generates a fresh id from twelve random
bytes, runs `INSERT INTO validations (id, schema, json) VALUES (?, ?, ?)`
(`created_at` defaults to the current timestamp `now`; the `PRIMARY KEY`
constraint makes the insert throw on a duplicate id, in which case neither
the table nor the file changes), then `saveDB()` rewrites the full image to
disk.  No expiry sweep is performed. -/
def sqliteSave (s : SQLiteState) (schema json : String) (rand : List Nat)
    (now : Nat) : Except String (SQLiteState × String) :=
  let id := generateId rand
  if s.rows.any (fun r => r.id == id) then
    .error "UNIQUE constraint failed: validations.id"
  else
    let rows := s.rows ++ [{ id := id, schema := schema, json := json, created_at := now }]
    .ok ({ rows := rows, disk := rows }, id)

/-- `SQLiteProvider.getValidation`: a single
`SELECT id, schema, json, created_at FROM validations WHERE id = ?`;
returns `null` when no row matches.  It runs no `DELETE`, no `INSERT` and
no `saveDB()`, so the state component of the result is the input state. -/
def sqliteGet (s : SQLiteState) (id : String) :
    SQLiteState × Option ValidationRecord :=
  (s, s.rows.find? (fun r => r.id == id))

/-! ## Managed provider (`src/database/dynamodb.ts`) -/

/-- An item of the DynamoDB table: partition key `PK` (the record id),
the two payloads, `created_at`, and the `ttl` attribute DynamoDB's native
reaper watches. -/
structure DynamoItem where
  PK : String
  schema : String
  json : String
  created_at : Nat
  ttl : Nat
deriving DecidableEq, Repr

/-- Configuration held by a successfully constructed `DynamoDBProvider`:
the table name and the region passed to the `DynamoDBClient` (`none` means
`undefined`, i.e. the SDK's ambient default configuration). -/
structure DynamoDBProviderConfig where
  tableName : String
  region : Option String
deriving DecidableEq, Repr

/-- JavaScript string truthiness as it appears in the constructor:
`undefined` and `""` are falsy, so `x || undefined` turns both into
`undefined`. -/
def jsEnvString : Option String → Option String
  | none => none
  | some s => if s = "" then none else some s

/-- `DynamoDBProvider`'s constructor: reads `AWS_REGION` and
`DYNAMODB_TABLE_NAME`, throws when the table name is not configured
(`if (!tableName)`), otherwise stores the table name and builds the client
with `region: region || undefined`.  An `error` result means no provider
value exists, so no `saveValidation`/`getValidation` can ever run. -/
def constructDynamoDBProvider (awsRegion dynamodbTableName : Option String) :
    Except String DynamoDBProviderConfig :=
  match jsEnvString dynamodbTableName with
  | none => .error "DYNAMODB_TABLE_NAME environment variable is required for DynamoDB provider"
  | some t => .ok { tableName := t, region := jsEnvString awsRegion }

/-- `DynamoDBProvider.saveValidation`: fresh id from twelve random bytes,
`created_at` the current instant, `ttl = Math.floor(Date.now() / 1000) +
86400` (one day from now, in seconds), then a single `PutCommand` keyed by
`PK` — a put overwrites any existing item with the same key.  `now` is the
current time in milliseconds, matching `Date.now()`. -/
def dynamoSave (table : List DynamoItem) (schema json : String)
    (rand : List Nat) (now : Nat) : List DynamoItem × String :=
  let id := generateId rand
  let item : DynamoItem :=
    { PK := id, schema := schema, json := json, created_at := now,
      ttl := now / 1000 + 86400 }
  (table.filter (fun it => !(it.PK == id)) ++ [item], id)

/-- `DynamoDBProvider.getValidation`: a single `GetCommand` keyed by `PK`;
`null` when the store reports no item, otherwise the `ValidationRecord`
rebuilt from the item's `PK`, `schema`, `json` and `created_at` attributes
— the `ttl` attribute is dropped. -/
def dynamoGet (table : List DynamoItem) (id : String) :
    Option ValidationRecord :=
  match table.find? (fun it => it.PK == id) with
  | none => none
  | some it =>
      some { id := it.PK, schema := it.schema, json := it.json,
             created_at := it.created_at }

/-! ## Storage facade (`src/database/index.ts`) -/

/-- The two recognized providers. -/
inductive Provider
  | sqlite
  | dynamodb
deriving DecidableEq, Repr

/-- JavaScript's `String.prototype.toLowerCase`, character by character
(all configuration values of interest are ASCII). -/
def jsToLowerCase (s : String) : String :=
  ⟨s.data.map Char.toLower⟩

/-- `getProvider`: `const provider = process.env.DB_PROVIDER || 'sqlite'`
(so an unset or empty variable defaults to `'sqlite'`), then a switch on
`provider.toLowerCase()` whose `'sqlite'` case and `default` case both
pick the SQLite provider. -/
def getProvider (dbProviderEnv : Option String) : Provider :=
  let provider := match dbProviderEnv with
    | none => "sqlite"
    | some s => if s = "" then "sqlite" else s
  match jsToLowerCase provider with
  | "dynamodb" => Provider.dynamodb
  | "sqlite" => Provider.sqlite
  | _ => Provider.sqlite

/-- The state the facade's single provider instance owns: the embedded
store's state or the managed table, depending on which provider was
constructed.  Modelled as a product so both dispatch branches are total. -/
structure FacadeState where
  sqlite : SQLiteState
  dynamo : List DynamoItem
deriving DecidableEq, Repr

/-- The facade's exported `saveValidation`, forwarding to the provider
chosen at startup. -/
def facadeSave (p : Provider) (st : FacadeState) (schema json : String)
    (rand : List Nat) (now : Nat) : Except String (FacadeState × String) :=
  match p with
  | .sqlite =>
      match sqliteSave st.sqlite schema json rand now with
      | .error e => .error e
      | .ok (s', id) => .ok ({ st with sqlite := s' }, id)
  | .dynamodb =>
      let (t', id) := dynamoSave st.dynamo schema json rand now
      .ok ({ st with dynamo := t' }, id)

/-- The facade's exported `getValidation`, forwarding to the provider
chosen at startup and returning its record (or `null`) unchanged. -/
def facadeGet (p : Provider) (st : FacadeState) (id : String) :
    FacadeState × Option ValidationRecord :=
  match p with
  | .sqlite =>
      let (s', r) := sqliteGet st.sqlite id
      ({ st with sqlite := s' }, r)
  | .dynamodb => (st, dynamoGet st.dynamo id)

/-! ## Legacy standalone module (old `src/database.ts`)

The pre-split database module: same sql.js table, but every `saveValidation`
and `getValidation` first calls `cleanupOldRecords`, which runs
`DELETE FROM validations WHERE created_at < datetime('now', '-7 days')`
and rewrites the file.  Timestamps here are in seconds; the window is
7 days = 604800 seconds. -/

/-- The 7-day retention window of the legacy sweep, in seconds. -/
def retentionWindow : Nat := 604800

/-- In-memory table plus on-disk image of the legacy module. -/
structure LegacyState where
  rows : List ValidationRecord
  disk : List ValidationRecord
deriving DecidableEq, Repr

/-- `cleanupOldRecords`: delete every record with
`created_at < now - 7 days` (kept are those with
`now ≤ created_at + 604800`), then `saveDB()`. -/
def cleanupOldRecords (s : LegacyState) (now : Nat) : LegacyState :=
  let rows := s.rows.filter (fun r => decide (now ≤ r.created_at + retentionWindow))
  { rows := rows, disk := rows }

/-- Legacy `saveValidation`: sweep first, then insert a fresh six-byte id
with `created_at = now`, then `saveDB()`. -/
def legacySave (s : LegacyState) (schema json : String) (rand : List Nat)
    (now : Nat) : Except String (LegacyState × String) :=
  let s1 := cleanupOldRecords s now
  let id := legacyGenerateId rand
  if s1.rows.any (fun r => r.id == id) then
    .error "UNIQUE constraint failed: validations.id"
  else
    let rows := s1.rows ++ [{ id := id, schema := schema, json := json, created_at := now }]
    .ok ({ rows := rows, disk := rows }, id)

/-- Legacy `getValidation`: sweep first (so a read mutates state and
writes the file), then the keyed `SELECT`. -/
def legacyGet (s : LegacyState) (id : String) (now : Nat) :
    LegacyState × Option ValidationRecord :=
  let s1 := cleanupOldRecords s now
  (s1, s1.rows.find? (fun r => r.id == id))

/-! ## Helper lemmas -/

theorem find?_append_fresh {α} (p : α → Bool) (l : List α) (x : α)
    (h : ∀ y ∈ l, ¬ p y) (hp : p x) : (l ++ [x]).find? p = some x := by
  rw [List.find?_append, List.find?_eq_none.mpr h]
  simp [List.find?, hp]

theorem sqliteSave_ok (s : SQLiteState) (schema json : String)
    (rand : List Nat) (now : Nat) (s' : SQLiteState) (idv : String)
    (h : sqliteSave s schema json rand now = .ok (s', idv)) :
    idv = generateId rand ∧
    s'.rows = s.rows ++ [{ id := generateId rand, schema := schema,
                           json := json, created_at := now }] ∧
    s'.disk = s'.rows ∧
    ∀ r ∈ s.rows, r.id ≠ generateId rand := by
  unfold sqliteSave at h
  dsimp only at h
  split at h
  · exact absurd h (by simp)
  · next hcond =>
    rw [Except.ok.injEq, Prod.mk.injEq] at h
    obtain ⟨hs, hid⟩ := h
    subst hs hid
    refine ⟨rfl, rfl, rfl, ?_⟩
    intro r hr hre
    exact hcond (List.any_eq_true.mpr ⟨r, hr, by simp [hre]⟩)

theorem sqliteSave_fresh_ok (s : SQLiteState) (schema json : String)
    (rand : List Nat) (now : Nat)
    (hfresh : ∀ r ∈ s.rows, r.id ≠ generateId rand) :
    sqliteSave s schema json rand now =
      .ok ({ rows := s.rows ++ [{ id := generateId rand, schema := schema,
                                  json := json, created_at := now }],
             disk := s.rows ++ [{ id := generateId rand, schema := schema,
                                  json := json, created_at := now }] },
           generateId rand) := by
  unfold sqliteSave
  have hany : (s.rows.any fun r => r.id == generateId rand) = false := by
    rw [List.any_eq_false]
    intro r hr
    simp [hfresh r hr]
  simp [hany]

theorem legacySave_ok (s : LegacyState) (schema json : String)
    (rand : List Nat) (now : Nat) (s' : LegacyState) (idv : String)
    (h : legacySave s schema json rand now = .ok (s', idv)) :
    s'.rows = (cleanupOldRecords s now).rows ++
      [{ id := legacyGenerateId rand, schema := schema, json := json,
         created_at := now }] := by
  unfold legacySave at h
  dsimp only at h
  split at h
  · exact absurd h (by simp)
  · rw [Except.ok.injEq, Prod.mk.injEq] at h
    rw [← h.1]

/-! ## Claims -/

/-- C7: every output of the identifier generator (`generateId` in
`src/database/types.ts`) is a fixed-length (16-character, hence non-empty)
URL-safe string — no character outside the base64url alphabet; the encoding
is injective on the twelve underlying random bytes, and the byte source
supplies `256 ^ 12 = 2 ^ 96 ≥ 2 ^ 90` distinct inputs, so the effective
keyspace is at least `2 ^ 90`.  Generation is a pure function of the drawn
bytes: it takes no other input and performs no I/O. -/
theorem c7_identifier_generator (bytes : List Nat)
    (hlen : bytes.length = 12) (hbytes : ∀ x ∈ bytes, x < 256) :
    (generateId bytes).length = 16 ∧
    generateId bytes ≠ "" ∧
    isUrlSafe (generateId bytes) = true ∧
    (∀ bytes2 : List Nat, bytes2.length = 12 → (∀ x ∈ bytes2, x < 256) →
        generateId bytes = generateId bytes2 → bytes = bytes2) ∧
    2 ^ 90 ≤ 256 ^ 12 := by
  have hl : (generateId bytes).length = 16 := by
    have := base64urlEncode_length bytes (by rw [hlen])
    rw [hlen] at this
    simpa [generateId] using this
  refine ⟨hl, ?_, base64urlEncode_urlSafe bytes hbytes, ?_, by norm_num⟩
  · intro hemp
    rw [hemp] at hl
    simp at hl
  · intro bytes2 _ hb2 heq
    exact base64urlEncode_inj bytes bytes2 hbytes hb2 heq

/-- Witness for C7 at the concrete byte draw `[0, 0, …, 0]`. -/
theorem c7_identifier_generator_witness :
    (generateId (List.replicate 12 0)).length = 16 ∧
    generateId (List.replicate 12 0) ≠ "" ∧
    isUrlSafe (generateId (List.replicate 12 0)) = true ∧
    (∀ bytes2 : List Nat, bytes2.length = 12 → (∀ x ∈ bytes2, x < 256) →
        generateId (List.replicate 12 0) = generateId bytes2 →
        List.replicate 12 0 = bytes2) ∧
    2 ^ 90 ≤ 256 ^ 12 :=
  c7_identifier_generator (List.replicate 12 0) (by decide) (by decide)

/-- C2: round-trip.  For every `(schema, json)` pair of strings, saving and
then getting (with no expiry in between) returns a record whose `schema` and
`json` equal the inputs byte-for-byte, whose `created_at` is set to the
store-assigned time, and whose `id` equals the id `save` returned, which is
non-empty (16 characters) and URL-safe — for the embedded provider (given
the generated id is fresh, which the primary key otherwise rejects) and for
the managed provider. -/
theorem c2_round_trip (s : SQLiteState) (table : List DynamoItem)
    (schema json : String) (rand : List Nat) (now : Nat)
    (hlen : rand.length = 12) (hbytes : ∀ x ∈ rand, x < 256)
    (hfresh : ∀ r ∈ s.rows, r.id ≠ generateId rand) :
    (∃ s', sqliteSave s schema json rand now = .ok (s', generateId rand) ∧
        (sqliteGet s' (generateId rand)).2 =
          some { id := generateId rand, schema := schema, json := json,
                 created_at := now }) ∧
    ((dynamoSave table schema json rand now).2 = generateId rand ∧
      dynamoGet (dynamoSave table schema json rand now).1 (generateId rand) =
        some { id := generateId rand, schema := schema, json := json,
               created_at := now }) ∧
    (generateId rand).length = 16 ∧
    generateId rand ≠ "" ∧
    isUrlSafe (generateId rand) = true := by
  have hl : (generateId rand).length = 16 := by
    have := base64urlEncode_length rand (by rw [hlen])
    rw [hlen] at this
    simpa [generateId] using this
  have hne : generateId rand ≠ "" := by
    intro hemp
    rw [hemp] at hl
    simp at hl
  refine ⟨?_, ⟨rfl, ?_⟩, hl, hne, base64urlEncode_urlSafe rand hbytes⟩
  · refine ⟨_, sqliteSave_fresh_ok s schema json rand now hfresh, ?_⟩
    unfold sqliteGet
    rw [find?_append_fresh]
    · intro y hy
      simp [hfresh y hy]
    · simp
  · unfold dynamoGet dynamoSave
    dsimp only
    rw [find?_append_fresh]
    · intro y hy
      simp only [List.mem_filter] at hy
      simpa using hy.2
    · simp

/-- Witness for C2 on empty stores, with the byte draw `[0, …, 0]`. -/
theorem c2_round_trip_witness :
    (∃ s', sqliteSave ⟨[], []⟩ "sch" "b" (List.replicate 12 0) 5 =
        .ok (s', generateId (List.replicate 12 0)) ∧
      (sqliteGet s' (generateId (List.replicate 12 0))).2 =
        some { id := generateId (List.replicate 12 0), schema := "sch",
               json := "b", created_at := 5 }) ∧
    ((dynamoSave [] "sch" "b" (List.replicate 12 0) 5).2 =
        generateId (List.replicate 12 0) ∧
      dynamoGet (dynamoSave [] "sch" "b" (List.replicate 12 0) 5).1
          (generateId (List.replicate 12 0)) =
        some { id := generateId (List.replicate 12 0), schema := "sch",
               json := "b", created_at := 5 }) ∧
    (generateId (List.replicate 12 0)).length = 16 ∧
    generateId (List.replicate 12 0) ≠ "" ∧
    isUrlSafe (generateId (List.replicate 12 0)) = true :=
  c2_round_trip ⟨[], []⟩ [] "sch" "b" (List.replicate 12 0) 5
    (by decide) (by decide) (by decide)

/-- C3: managed-provider construction fails fast.  With no table name
configured (`DYNAMODB_TABLE_NAME` unset — or empty, which JavaScript's
`!tableName` treats the same) the constructor throws immediately, so no
provider value exists and no save/get can be attempted; with a (non-empty)
table name configured, construction succeeds, and a missing `AWS_REGION`
falls back to `undefined`, i.e. the SDK's ambient default configuration. -/
theorem c3_managed_construction_fail_fast (region : Option String)
    (tableName : String) (h : tableName ≠ "") :
    (∀ r : Option String, constructDynamoDBProvider r none =
        .error "DYNAMODB_TABLE_NAME environment variable is required for DynamoDB provider") ∧
    constructDynamoDBProvider region (some tableName) =
      .ok { tableName := tableName, region := jsEnvString region } ∧
    constructDynamoDBProvider none (some tableName) =
      .ok { tableName := tableName, region := none } := by
  refine ⟨fun r => rfl, ?_, ?_⟩ <;>
    simp [constructDynamoDBProvider, jsEnvString, h]

/-- Witness for C3 with table name `"validations"` and region unset. -/
theorem c3_managed_construction_fail_fast_witness :
    (∀ r : Option String, constructDynamoDBProvider r none =
        .error "DYNAMODB_TABLE_NAME environment variable is required for DynamoDB provider") ∧
    constructDynamoDBProvider none (some "validations") =
      .ok { tableName := "validations", region := jsEnvString none } ∧
    constructDynamoDBProvider none (some "validations") =
      .ok { tableName := "validations", region := none } :=
  c3_managed_construction_fail_fast none "validations" (by decide)

/-- C4: every call to the managed provider's save stores, under the returned
id, an item whose `ttl` equals the current time plus the fixed 1-day window
as an integer Unix timestamp in seconds (`Math.floor(Date.now() / 1000) +
86400` — the unit DynamoDB's native TTL feature expects), alongside
`created_at` set to the current time. -/
theorem c4_managed_ttl (table : List DynamoItem) (schema json : String)
    (rand : List Nat) (now : Nat) :
    (dynamoSave table schema json rand now).1.find?
        (fun it => it.PK == (dynamoSave table schema json rand now).2) =
      some { PK := generateId rand, schema := schema, json := json,
             created_at := now, ttl := now / 1000 + 86400 } := by
  unfold dynamoSave
  dsimp only
  rw [find?_append_fresh]
  · intro y hy
    simp only [List.mem_filter] at hy
    simpa using hy.2
  · simp

/-- C5: provider fallback.  For every configuration value that is not a
recognized provider option (and when the value is absent) the facade selects
the embedded provider, and its save/get behaviour coincides with that of a
facade configured explicitly with `DB_PROVIDER=sqlite`. -/
theorem c5_provider_fallback (v : String) (hv : jsToLowerCase v ≠ "dynamodb") :
    getProvider (some v) = Provider.sqlite ∧
    getProvider none = Provider.sqlite ∧
    getProvider (some "sqlite") = Provider.sqlite ∧
    (∀ st schema json rand now,
        facadeSave (getProvider (some v)) st schema json rand now =
          facadeSave (getProvider (some "sqlite")) st schema json rand now) ∧
    (∀ st id, facadeGet (getProvider (some v)) st id =
        facadeGet (getProvider (some "sqlite")) st id) := by
  have hsq : getProvider (some v) = Provider.sqlite := by
    by_cases hv0 : v = ""
    · rw [hv0]; decide
    · simp only [getProvider, hv0, if_false]
      split
      · next heq => exact absurd heq hv
      · rfl
      · rfl
  have hlit : getProvider (some "sqlite") = Provider.sqlite := by decide
  refine ⟨hsq, by decide, hlit, ?_, ?_⟩
  · intro st schema json rand now
    rw [hsq, hlit]
  · intro st id
    rw [hsq, hlit]

/-- Witness for C5 at the unrecognized value `"garbage"`. -/
theorem c5_provider_fallback_witness :
    getProvider (some "garbage") = Provider.sqlite ∧
    getProvider none = Provider.sqlite ∧
    getProvider (some "sqlite") = Provider.sqlite ∧
    (∀ st schema json rand now,
        facadeSave (getProvider (some "garbage")) st schema json rand now =
          facadeSave (getProvider (some "sqlite")) st schema json rand now) ∧
    (∀ st id, facadeGet (getProvider (some "garbage")) st id =
        facadeGet (getProvider (some "sqlite")) st id) :=
  c5_provider_fallback "garbage" (by decide)

/-- C6: absence is not an error.  For every id matching no stored record,
`get` returns the absent result (`none`) — a normal value, not a thrown
error — on both the embedded and the managed provider. -/
theorem c6_absence_not_error (s : SQLiteState) (table : List DynamoItem)
    (id : String) (h1 : ∀ r ∈ s.rows, r.id ≠ id)
    (h2 : ∀ it ∈ table, it.PK ≠ id) :
    (sqliteGet s id).2 = none ∧ dynamoGet table id = none := by
  constructor
  · unfold sqliteGet
    dsimp only
    rw [List.find?_eq_none.mpr]
    intro r hr
    simp [h1 r hr]
  · unfold dynamoGet
    rw [List.find?_eq_none.mpr]
    intro it hit
    simp [h2 it hit]

/-- Witness for C6: a one-record store probed with `"nonexistent-id"`. -/
theorem c6_absence_not_error_witness :
    (sqliteGet ⟨[⟨"a", "s", "j", 0⟩], [⟨"a", "s", "j", 0⟩]⟩
        "nonexistent-id").2 = none ∧
    dynamoGet [⟨"a", "s", "j", 0, 86400⟩] "nonexistent-id" = none :=
  c6_absence_not_error ⟨[⟨"a", "s", "j", 0⟩], [⟨"a", "s", "j", 0⟩]⟩
    [⟨"a", "s", "j", 0, 86400⟩] "nonexistent-id" (by decide) (by decide)

/-- C8: the facade hides provider-specific fields.  Every record observable
through the facade's `get` on the managed provider is exactly the
four-field projection `{ id, schema, json, created_at }` of the stored
item — `ValidationRecord` has no `ttl` field — and the result is invariant
under arbitrary changes of the stored `ttl` attribute, so `ttl` is never
observable through the facade. -/
theorem c8_facade_hides_ttl (st : FacadeState) (table : List DynamoItem)
    (id : String) :
    (∀ r, (facadeGet Provider.dynamodb st id).2 = some r →
        ∃ it, st.dynamo.find? (fun x => x.PK == id) = some it ∧
          r = { id := it.PK, schema := it.schema, json := it.json,
                created_at := it.created_at }) ∧
    (∀ g : Nat → Nat,
        dynamoGet (table.map (fun it => { it with ttl := g it.ttl })) id =
          dynamoGet table id) := by
  constructor
  · intro r hr
    simp only [facadeGet, dynamoGet] at hr
    split at hr
    · exact absurd hr (by simp)
    · next it hit =>
      rw [Option.some.injEq] at hr
      exact ⟨it, hit, hr.symm⟩
  · intro g
    unfold dynamoGet
    rw [List.find?_map]
    have hp : ((fun it : DynamoItem => it.PK == id) ∘
        fun it => { it with ttl := g it.ttl }) =
        fun it : DynamoItem => it.PK == id := rfl
    rw [hp]
    cases table.find? (fun it => it.PK == id) <;> rfl

/-- Witness for C8 on a one-item table whose `ttl` is perturbed. -/
theorem c8_facade_hides_ttl_witness :
    (∃ it, (FacadeState.mk ⟨[], []⟩ [⟨"a", "s", "j", 7, 99⟩]).dynamo.find?
          (fun x => x.PK == "a") = some it ∧
        ({ id := "a", schema := "s", json := "j", created_at := 7 }
            : ValidationRecord) =
          { id := it.PK, schema := it.schema, json := it.json,
            created_at := it.created_at }) ∧
    dynamoGet (([⟨"a", "s", "j", 7, 99⟩] : List DynamoItem).map
        (fun it => { it with ttl := it.ttl + 1 })) "a" =
      dynamoGet [⟨"a", "s", "j", 7, 99⟩] "a" :=
  ⟨(c8_facade_hides_ttl (FacadeState.mk ⟨[], []⟩ [⟨"a", "s", "j", 7, 99⟩])
      [⟨"a", "s", "j", 7, 99⟩] "a").1
      { id := "a", schema := "s", json := "j", created_at := 7 } (by decide),
    (c8_facade_hides_ttl (FacadeState.mk ⟨[], []⟩ [⟨"a", "s", "j", 7, 99⟩])
      [⟨"a", "s", "j", 7, 99⟩] "a").2 (fun t => t + 1)⟩

/-- C9 (implicit): the embedded provider's `get` is a pure read after
initialization — it performs no mutation of the stored record set and no
disk write, so any sequence of `get` calls leaves the store state (memory
and file image) unchanged, and two consecutive `get` calls with the same id
return identical results. -/
theorem c9_embedded_get_pure (s : SQLiteState) (id1 id2 : String) :
    (sqliteGet s id1).1 = s ∧
    (sqliteGet s id1).1.disk = s.disk ∧
    (sqliteGet ((sqliteGet s id2).1) id1).2 = (sqliteGet s id1).2 :=
  ⟨rfl, rfl, rfl⟩

/-- C10 (implicit): the embedded provider never overwrites an existing
record.  If the freshly generated id collides with a stored record's id,
the `INSERT` fails with the primary-key violation (and, the error
propagating before `saveDB()`, neither the table nor the file image
changes — the model returns no new state); on success the previous rows
are all preserved and the new record is appended, so `save` never silently
replaces a record. -/
theorem c10_embedded_no_overwrite (s : SQLiteState) (schema json : String)
    (rand : List Nat) (now : Nat) :
    ((∃ r ∈ s.rows, r.id = generateId rand) →
        sqliteSave s schema json rand now =
          .error "UNIQUE constraint failed: validations.id") ∧
    (∀ s' idv, sqliteSave s schema json rand now = .ok (s', idv) →
        idv = generateId rand ∧
        s'.rows = s.rows ++ [{ id := generateId rand, schema := schema,
                               json := json, created_at := now }] ∧
        ∀ r ∈ s.rows, r ∈ s'.rows) := by
  constructor
  · intro ⟨r, hr, hrid⟩
    unfold sqliteSave
    dsimp only
    have : (s.rows.any fun x => x.id == generateId rand) = true :=
      List.any_eq_true.mpr ⟨r, hr, by simp [hrid]⟩
    simp [this]
  · intro s' idv h
    obtain ⟨hid, hrows, _, _⟩ := sqliteSave_ok s schema json rand now s' idv h
    refine ⟨hid, hrows, ?_⟩
    intro r hr
    rw [hrows]
    exact List.mem_append_left _ hr

/-- Witness for C10: a store already holding the id generated from the
all-zero byte draw rejects the colliding insert; a fresh store accepts. -/
theorem c10_embedded_no_overwrite_witness :
    sqliteSave ⟨[⟨"AAAAAAAAAAAAAAAA", "s0", "j0", 1⟩],
                [⟨"AAAAAAAAAAAAAAAA", "s0", "j0", 1⟩]⟩
        "s1" "j1" (List.replicate 12 0) 2 =
      .error "UNIQUE constraint failed: validations.id" :=
  (c10_embedded_no_overwrite
      ⟨[⟨"AAAAAAAAAAAAAAAA", "s0", "j0", 1⟩],
        [⟨"AAAAAAAAAAAAAAAA", "s0", "j0", 1⟩]⟩
      "s1" "j1" (List.replicate 12 0) 2).1
    ⟨⟨"AAAAAAAAAAAAAAAA", "s0", "j0", 1⟩, by decide, by decide⟩

/-- C1 counterexample: the claim as stated fails on the embedded provider
of the facade (`SQLiteProvider` in `src/database/sqlite.ts`).  A record
created at time 0 is far older than the 7-day retention window at time
10^7, yet after a subsequent `save` it is still stored and still returned
by `get` — `SQLiteProvider` performs no expiry sweep at all. -/
theorem c1_embedded_expiry_counterexample :
    ∃ s' idv,
      sqliteSave ⟨[⟨"oldid", "s", "j", 0⟩], [⟨"oldid", "s", "j", 0⟩]⟩
          "sch" "jsn" (List.replicate 12 0) 10000000 = .ok (s', idv) ∧
      (∃ r ∈ s'.rows, r.created_at + retentionWindow < 10000000) ∧
      (sqliteGet s' "oldid").2 = some ⟨"oldid", "s", "j", 0⟩ := by
  refine ⟨_, _, sqliteSave_fresh_ok
      ⟨[⟨"oldid", "s", "j", 0⟩], [⟨"oldid", "s", "j", 0⟩]⟩
      "sch" "jsn" (List.replicate 12 0) 10000000 (by decide), ?_, by decide⟩
  exact ⟨⟨"oldid", "s", "j", 0⟩, by decide, by decide⟩

/-- C1 (amended): the sweep-on-access expiry belongs to the legacy
standalone database module, not to the facade's embedded provider.  In the
legacy module every `save` and every `get` first deletes all records whose
`created_at` is older than the 7-day retention window, so after any such
call no stored record is older than the window; the current
`SQLiteProvider`'s `save` and `get` perform no sweep — `get` leaves the
stored rows unchanged and `save` preserves every previously stored
record. -/
theorem c1_expiry_sweep_amended (s : SQLiteState) (ls : LegacyState)
    (schema json idq : String) (rand : List Nat) (now : Nat) :
    ((sqliteGet s idq).1 = s) ∧
    (∀ s' idv, sqliteSave s schema json rand now = .ok (s', idv) →
        ∀ r ∈ s.rows, r ∈ s'.rows) ∧
    (∀ ls' idv, legacySave ls schema json rand now = .ok (ls', idv) →
        ∀ r ∈ ls'.rows, now ≤ r.created_at + retentionWindow) ∧
    (∀ r ∈ (legacyGet ls idq now).1.rows,
        now ≤ r.created_at + retentionWindow) := by
  refine ⟨rfl, ?_, ?_, ?_⟩
  · intro s' idv h r hr
    obtain ⟨_, hrows, _, _⟩ := sqliteSave_ok s schema json rand now s' idv h
    rw [hrows]
    exact List.mem_append_left _ hr
  · intro ls' idv h r hr
    rw [legacySave_ok ls schema json rand now ls' idv h] at hr
    rcases List.mem_append.mp hr with hold | hnew
    · have := (List.mem_filter.mp hold).2
      simpa using this
    · simp only [List.mem_singleton] at hnew
      rw [hnew]
      simp [retentionWindow]
  · intro r hr
    simp only [legacyGet, cleanupOldRecords] at hr
    have := (List.mem_filter.mp hr).2
    simpa using this

/-- Witness for C1 (amended): concrete stores at time 5; the surviving
legacy record is within the window. -/
theorem c1_expiry_sweep_amended_witness :
    ((sqliteGet ⟨[⟨"a", "s", "j", 0⟩], [⟨"a", "s", "j", 0⟩]⟩ "q").1 =
        ⟨[⟨"a", "s", "j", 0⟩], [⟨"a", "s", "j", 0⟩]⟩) ∧
    (5 : Nat) ≤ (0 : Nat) + retentionWindow :=
  ⟨(c1_expiry_sweep_amended ⟨[⟨"a", "s", "j", 0⟩], [⟨"a", "s", "j", 0⟩]⟩
      ⟨[⟨"a", "s", "j", 0⟩], [⟨"a", "s", "j", 0⟩]⟩ "x" "y" "q" [] 5).1,
    (c1_expiry_sweep_amended ⟨[⟨"a", "s", "j", 0⟩], [⟨"a", "s", "j", 0⟩]⟩
      ⟨[⟨"a", "s", "j", 0⟩], [⟨"a", "s", "j", 0⟩]⟩ "x" "y" "q" [] 5).2.2.2
      ⟨"a", "s", "j", 0⟩ (by decide)⟩

end JsonValidator
